import Mathlib

/-!
Shallow embedding of the dj-webhooks webhook dispatch code, namely the
modules `djwebhooks/conf.py` and `djwebhooks/senders/redislog.py`.

Python values are modelled by `PyVal`; Django settings are modelled as an
association list consulted through `getattr` with a default, exactly as the
source modules do.  Raising an exception is modelled with `Except.error`.
String literals reproduce the source messages except that the single-quote
characters around argument names are elided.

The parts of the dispatch engine that live in the external `webhooks`
package (the `Senderable` retry loop, `get_payload`) are not part of this
repository snapshot; their definitions are modelled from the specification
and say so in their doc comments.
-/

namespace DjWebhooks

/-- A Python-ish value: None, a string, an integer, or a list. -/
inductive PyVal where
  | none : PyVal
  | str : String → PyVal
  | int : Int → PyVal
  | list : List PyVal → PyVal

/-- First-match association-list lookup with string keys, the model of both
Python attribute dictionaries and keyword-argument dictionaries. -/
def lookupStr {α : Type} (d : List (String × α)) (k : String) : Option α :=
  match d with
  | [] => Option.none
  | (k0, v) :: rest => if k0 = k then some v else lookupStr rest k

/-- The getattr(settings, name, default) read used at module level by
conf.py and redislog.py, over settings modelled as an association list. -/
def getattr (settings : List (String × PyVal)) (name : String) (default : PyVal) : PyVal :=
  match lookupStr settings name with
  | some v => v
  | Option.none => default

/-- Python iteration: a list iterates to its elements and a string to its
one-character strings; None and integers raise TypeError when iterated,
modelled by `Option.none`. -/
def pyIter : PyVal → Option (List PyVal)
  | PyVal.str s => some (s.toList.map (fun c => PyVal.str (String.singleton c)))
  | PyVal.list xs => some xs
  | _ => Option.none

namespace conf

/-- event_choices from djwebhooks/conf.py lines 5-17: a None argument
raises ImproperlyConfigured, a non-iterable argument raises
ImproperlyConfigured from the TypeError handler, and an iterable argument
yields the list comprehension [(x, x) for x in events]. -/
def event_choices (events : PyVal) : Except String (List (PyVal × PyVal)) :=
  match events with
  | PyVal.none => Except.error "Please add some events in settings.WEBHOOK_EVENTS."
  | e =>
    match pyIter e with
    | some xs => Except.ok (xs.map (fun x => (x, x)))
    | Option.none => Except.error "settings.WEBHOOK_EVENTS must be an iterable object."

/-- The module-level bindings of djwebhooks/conf.py, in source order. -/
structure Conf where
  WEBHOOKS_SENDER : PyVal
  WEBHOOK_OWNER_FIELD : PyVal
  WEBHOOK_ATTEMPTS : PyVal
  WEBHOOK_EVENTS : PyVal
  WEBHOOK_EVENTS_CHOICES : List (PyVal × PyVal)

/-- Importing djwebhooks.conf (lines 20-24): the five module-level
assignments are evaluated in order, and an exception raised by
event_choices aborts the import. -/
def loadConf (settings : List (String × PyVal)) : Except String Conf :=
  let ws := getattr settings "WEBHOOKS_SENDER" (PyVal.str "djwebhooks.senders")
  let wof := getattr settings "WEBHOOK_OWNER_FIELD" (PyVal.str "username")
  let wa := getattr settings "WEBHOOK_EVENTS"
    (PyVal.list [PyVal.int 0, PyVal.int 15, PyVal.int 30, PyVal.int 60])
  let we := getattr settings "WEBHOOK_EVENTS" PyVal.none
  match event_choices we with
  | Except.error msg => Except.error msg
  | Except.ok choices => Except.ok ⟨ws, wof, wa, we, choices⟩

end conf

namespace redislog

/-- Module-level WEBHOOK_OWNER_FIELD of redislog.py line 18. -/
def WEBHOOK_OWNER_FIELD (settings : List (String × PyVal)) : PyVal :=
  getattr settings "WEBHOOK_OWNER_FIELD" (PyVal.str "username")

/-- Module-level WEBHOOK_ATTEMPTS of redislog.py line 23: the value read is
the settings key WEBHOOK_EVENTS, with the tuple (0, 15, 30, 60) as the
default. -/
def WEBHOOK_ATTEMPTS (settings : List (String × PyVal)) : PyVal :=
  getattr settings "WEBHOOK_EVENTS"
    (PyVal.list [PyVal.int 0, PyVal.int 15, PyVal.int 30, PyVal.int 60])

/-- The allowed-events setting, as djwebhooks/conf.py line 23 reads it. -/
def WEBHOOK_EVENTS (settings : List (String × PyVal)) : PyVal :=
  getattr settings "WEBHOOK_EVENTS" PyVal.none

end redislog

/-- The owner object of a dispatch, carrying its Python attributes. -/
structure Owner where
  attrs : List (String × String)
  deriving DecidableEq, Repr

/-- Python attribute read on the owner object; a missing attribute raises
AttributeError, modelled by Option.none. -/
def Owner.getattr (o : Owner) (field : String) : Option String :=
  lookupStr o.attrs field

/-- Python dict read d[k]. -/
def dictGet (d : List (String × PyVal)) (k : String) : Option PyVal :=
  lookupStr d k

/-- Python dict assignment d[k] = v: overwrite the existing entry in
place, or append a new one. -/
def dictSet (d : List (String × PyVal)) (k : String) (v : PyVal) :
    List (String × PyVal) :=
  match d with
  | [] => [(k, v)]
  | (k0, v0) :: rest =>
    if k0 = k then (k, v) :: rest else (k0, v0) :: dictSet rest k v

/-- make_key from redislog.py lines 34-35. -/
def make_key (event owner_name identifier : String) : String :=
  event ++ ":" ++ owner_name ++ ":" ++ identifier

/-- One record pushed to the delivery log: the dict built by notify at
redislog.py lines 55-64, kept structured rather than as a JSON string. -/
structure NotifyRecord where
  payload : List (String × PyVal)
  attempt : Nat
  success : Bool
  response_message : String
  hash_value : String
  response_status : Int
  notification : String
  created : Nat

/-- The sender state notify reads from self at redislog.py lines 50-67. -/
structure SenderSnapshot where
  payload : List (String × PyVal)
  attempt : Nat
  success : Bool
  response_content : String
  hash_value : String
  response_status : Int
  event : String
  owner : Owner
  identifier : String

/-- RedisLogSenderable.notify, redislog.py lines 50-67: builds the record
dict and the key make_key(event, owner.username, identifier) and pushes
the record under the key; a missing username attribute raises
AttributeError.  The created timestamp and the notification message are
supplied by the caller. -/
def RedisLogSenderable.notify (s : SenderSnapshot) (message : String)
    (created : Nat) : Except String (String × NotifyRecord) :=
  match s.owner.getattr "username" with
  | some u =>
    Except.ok (make_key s.event u s.identifier,
      ⟨s.payload, s.attempt, s.success, s.response_content, s.hash_value,
        s.response_status, message, created⟩)
  | Option.none => Except.error "AttributeError: username"

/-- Status code and body of one transport attempt, the outcome of the
backend deliver operation (an external collaborator). -/
structure AttemptOutcome where
  status : Int
  body : String

/-- Modelled from the spec, section 4.3: success of an attempt means a
transport status in the 2xx success range. -/
def isSuccess (status : Int) : Bool :=
  decide (200 ≤ status ∧ status < 300)

/-- One entry of the attempt history kept by the retry loop. -/
structure AttemptRecord where
  attempt : Nat
  success : Bool
  status : Int
  body : String
  deriving DecidableEq, Repr

/-- Modelled from the spec, section 4.3: the structured result send
returns, success flag plus attempt history plus hash. -/
structure SendResult where
  success : Bool
  attempts : List AttemptRecord
  hash : String
  deriving DecidableEq, Repr

/-- The per-dispatch context the retry loop carries: the fields of the
RedisLogSenderable set by __init__ (redislog.py lines 40-48) and by
redislog_callable (lines 115-124) before send runs. -/
structure SenderCtx where
  event : String
  owner : Owner
  identifier : String
  payload : List (String × PyVal)
  hash_value : String

/-- Modelled from the spec, section 4.3: after every attempt the loop
invokes the backend notify hook; a fault while appending to the log
(lpushFaults) and an exception inside notify are both caught, never
aborting the loop.  Returns the log entries the attempt appends. -/
def notifyStep (lpushFaults : Nat → Bool) (now : Nat → Nat) (ctx : SenderCtx)
    (i : Nat) (succ : Bool) (out : AttemptOutcome) :
    List (String × NotifyRecord) :=
  match RedisLogSenderable.notify
      ⟨ctx.payload, i, succ, out.body, ctx.hash_value, out.status,
        ctx.event, ctx.owner, ctx.identifier⟩
      ("Attempt " ++ toString (i + 1)) (now i) with
  | Except.ok kv => if lpushFaults i then [] else [kv]
  | Except.error _ => []

/-- Modelled from the spec, section 4.3: the Senderable retry loop of the
external webhooks package, which is not part of this repository snapshot.
It walks the retry schedule in order; each iteration performs one
transport attempt, appends it to the attempt history, invokes the backend
notify hook with faults isolated, stops at the first success, and reports
failure once the schedule is exhausted.  The inter-attempt sleep has no
observable effect on the result and is not modelled.  Returns the success
flag, the attempt history and the log entries written. -/
def runAttempts (deliver : List (String × PyVal) → Nat → AttemptOutcome)
    (lpushFaults : Nat → Bool) (now : Nat → Nat) (ctx : SenderCtx)
    (i : Nat) (schedule : List Int) :
    Bool × List AttemptRecord × List (String × NotifyRecord) :=
  match schedule with
  | [] => (false, [], [])
  | _ :: rest =>
    let out := deliver ctx.payload i
    let succ := isSuccess out.status
    let r : AttemptRecord := ⟨i, succ, out.status, out.body⟩
    let le := notifyStep lpushFaults now ctx i succ out
    if succ then (true, [r], le)
    else
      let next := runAttempts deliver lpushFaults now ctx (i + 1) rest
      (next.1, r :: next.2.1, le ++ next.2.2)

/-- Modelled from the spec, section 4.3: send of the external webhooks
package drives the retry loop from attempt 0 and returns the structured
result together with the log entries written. -/
def Senderable.send (deliver : List (String × PyVal) → Nat → AttemptOutcome)
    (lpushFaults : Nat → Bool) (now : Nat → Nat) (ctx : SenderCtx)
    (schedule : List Int) : SendResult × List (String × NotifyRecord) :=
  let t := runAttempts deliver lpushFaults now ctx 0 schedule
  (⟨t.1, t.2.1, ctx.hash_value⟩, t.2.2)

/-- The external WebhookTarget collaborator: identity is the (event,
owner, identifier) triple, attribute is target_url. -/
structure WebhookTarget where
  event : String
  owner : Owner
  identifier : String
  target_url : String
  deriving DecidableEq, Repr

/-- WebhookTarget.objects.get at redislog.py lines 106-110: the target
matching the (event, owner, identifier) triple, with DoesNotExist
modelled by Option.none. -/
def WebhookTarget.get (targets : List WebhookTarget) (event : String)
    (owner : Owner) (identifier : String) : Option WebhookTarget :=
  match targets with
  | [] => Option.none
  | t :: rest =>
    if t.event = event ∧ t.owner = owner ∧ t.identifier = identifier then some t
    else WebhookTarget.get rest event owner identifier

/-- Keyword arguments of an invocation of the decorated function: the two
keys redislog_callable checks for, plus the remaining kwargs. -/
structure Kwargs where
  owner : Option Owner
  identifier : Option String
  extra : List (String × PyVal)

/-- redislog.py lines 117-124 after get_payload: the two payload
assignments, the owner projected through the configured owner field and
the declared event. -/
def augment_payload (raw : List (String × PyVal)) (ownerVal : String)
    (event : String) : List (String × PyVal) :=
  dictSet (dictSet raw "owner" (PyVal.str ownerVal)) "event" (PyVal.str event)

/-- Return value of a dispatch: the error dict or the send result. -/
inductive DispatchResult where
  | error (msg : String)
  | sent (result : SendResult)

/-- What a completed call of redislog_callable did: its return value,
whether the RedisLogSenderable was constructed, how many transport
attempts ran, and the log entries appended. -/
structure DispatchOutcome where
  result : DispatchResult
  senderConstructed : Bool
  deliveries : Nat
  log : List (String × NotifyRecord)

/-- A Python exception escaping redislog_callable. -/
inductive PyError where
  | typeError (msg : String)
  | attributeError (msg : String)
  deriving DecidableEq, Repr

/-- redislog_callable, redislog.py lines 70-126, parametrised by its
collaborators: deliver, lpushFaults and now model the network, the redis
append faults and the clock; targets models the WebhookTarget table;
owner_field and attempts are the module-level WEBHOOK_OWNER_FIELD and
WEBHOOK_ATTEMPTS values.  get_payload of the external Senderable is
modelled from the spec: it invokes the wrapped function on the invocation
kwargs.  The RedisLogSenderable is constructed at line 99, before the
target lookup of lines 105-112, which the senderConstructed field
records. -/
def redislog_callable (deliver : List (String × PyVal) → Nat → AttemptOutcome)
    (lpushFaults : Nat → Bool) (now : Nat → Nat)
    (targets : List WebhookTarget) (owner_field : String) (attempts : List Int)
    (wrapped : Kwargs → List (String × PyVal))
    (dkwargs : List (String × String)) (hash_value : String) (kwargs : Kwargs) :
    Except PyError DispatchOutcome :=
  match lookupStr dkwargs "event" with
  | Option.none =>
    Except.error (PyError.typeError
      "djwebhooks.decorators.hook requires an event argument in the decorator.")
  | some event =>
    match kwargs.owner with
    | Option.none =>
      Except.error (PyError.typeError
        "djwebhooks.senders.redislog_callable requires an owner argument in the decorated function.")
    | some owner =>
      match kwargs.identifier with
      | Option.none =>
        Except.error (PyError.typeError
          "djwebhooks.senders.redislog_callable requires an identifier argument in the decorated function.")
      | some identifier =>
        match WebhookTarget.get targets event owner identifier with
        | Option.none =>
          Except.ok ⟨DispatchResult.error "WebhookTarget not found", true, 0, []⟩
        | some _t =>
          match owner.getattr owner_field with
          | Option.none => Except.error (PyError.attributeError owner_field)
          | some v =>
            let t := Senderable.send deliver lpushFaults now
              ⟨event, owner, identifier,
                augment_payload (wrapped kwargs) v event, hash_value⟩ attempts
            Except.ok ⟨DispatchResult.sent t.1, true, t.1.attempts.length, t.2⟩

/-- The log entry a fault-free notify writes for one attempt record: the
key event:username:identifier and the full record. -/
def mkLogEntry (ctx : SenderCtx) (u : String) (now : Nat → Nat)
    (r : AttemptRecord) : String × NotifyRecord :=
  (make_key ctx.event u ctx.identifier,
    ⟨ctx.payload, r.attempt, r.success, r.body, ctx.hash_value, r.status,
      "Attempt " ++ toString (r.attempt + 1), now r.attempt⟩)

/-- C2: the claim says the retry-delay schedule is determined by its own,
correctly-named configuration option, independent of the allowed-events
setting.  The code instead reads the WEBHOOK_EVENTS settings key: with the
allowed events configured as the list [order.ship], the attempt schedule
equals that event list, not a sequence of delays. -/
theorem C2_retry_schedule_reads_events_key :
    redislog.WEBHOOK_ATTEMPTS [("WEBHOOK_EVENTS", PyVal.list [PyVal.str "order.ship"])] =
      redislog.WEBHOOK_EVENTS [("WEBHOOK_EVENTS", PyVal.list [PyVal.str "order.ship"])] ∧
    redislog.WEBHOOK_ATTEMPTS [("WEBHOOK_EVENTS", PyVal.list [PyVal.str "order.ship"])] =
      PyVal.list [PyVal.str "order.ship"] := by
  constructor
  · rfl
  · rfl

/-- C8: loading djwebhooks.conf fails at import time when the configured
event set is missing (None) or not iterable, and succeeds for every
iterable value. -/
theorem C8_conf_fatal_at_import (settings : List (String × PyVal)) :
    (getattr settings "WEBHOOK_EVENTS" PyVal.none = PyVal.none →
      ∃ msg, conf.loadConf settings = Except.error msg) ∧
    (pyIter (getattr settings "WEBHOOK_EVENTS" PyVal.none) = Option.none →
      ∃ msg, conf.loadConf settings = Except.error msg) ∧
    (∀ xs, pyIter (getattr settings "WEBHOOK_EVENTS" PyVal.none) = some xs →
      ∃ c, conf.loadConf settings = Except.ok c) := by
  refine ⟨?_, ?_, ?_⟩
  · intro h
    simp [conf.loadConf, conf.event_choices, h]
  · intro h
    cases hwe : getattr settings "WEBHOOK_EVENTS" PyVal.none with
    | none => simp [conf.loadConf, conf.event_choices, hwe]
    | str s => rw [hwe] at h; simp [pyIter] at h
    | int n => simp [conf.loadConf, conf.event_choices, pyIter, hwe]
    | list l => rw [hwe] at h; simp [pyIter] at h
  · intro xs h
    cases hwe : getattr settings "WEBHOOK_EVENTS" PyVal.none with
    | none => rw [hwe] at h; simp [pyIter] at h
    | str s =>
      rw [hwe] at h
      simp [conf.loadConf, conf.event_choices, hwe, h]
    | int n => rw [hwe] at h; simp [pyIter] at h
    | list l =>
      rw [hwe] at h
      simp [conf.loadConf, conf.event_choices, hwe, h]

/-- C8 witness: with no settings the event set is missing and the import
fails; with a non-iterable event set it fails; with a list it succeeds. -/
theorem C8_witness :
    (∃ msg, conf.loadConf [] = Except.error msg) ∧
    (∃ msg, conf.loadConf [("WEBHOOK_EVENTS", PyVal.int 3)] = Except.error msg) ∧
    (∃ c, conf.loadConf [("WEBHOOK_EVENTS", PyVal.list [PyVal.str "order.ship"])] =
      Except.ok c) :=
  ⟨(C8_conf_fatal_at_import []).1 rfl,
   (C8_conf_fatal_at_import [("WEBHOOK_EVENTS", PyVal.int 3)]).2.1 rfl,
   (C8_conf_fatal_at_import [("WEBHOOK_EVENTS", PyVal.list [PyVal.str "order.ship"])]).2.2
     [PyVal.str "order.ship"] rfl⟩

/-- C10: on every iterable value, event_choices returns the ordered list of
(x, x) pairs, one per input element, and does not raise. -/
theorem C10_event_choices_pairs (events : PyVal) (xs : List PyVal)
    (h : pyIter events = some xs) :
    conf.event_choices events = Except.ok (xs.map (fun x => (x, x))) ∧
    (xs.map (fun x => (x, x))).length = xs.length := by
  constructor
  · cases events with
    | none => simp [pyIter] at h
    | str s => simp [conf.event_choices, h]
    | int n => simp [pyIter] at h
    | list l => simp [conf.event_choices, h]
  · simp

/-- C10 witness: the two-element event list gives the two ordered pairs. -/
theorem C10_witness :
    conf.event_choices (PyVal.list [PyVal.str "a", PyVal.str "b"]) =
      Except.ok [(PyVal.str "a", PyVal.str "a"), (PyVal.str "b", PyVal.str "b")] ∧
    ([(PyVal.str "a", PyVal.str "a"), (PyVal.str "b", PyVal.str "b")]
      : List (PyVal × PyVal)).length = 2 :=
  ⟨(C10_event_choices_pairs (PyVal.list [PyVal.str "a", PyVal.str "b"])
      [PyVal.str "a", PyVal.str "b"] rfl).1, rfl⟩

/-- C1 amended: a dispatch whose (event, owner, identifier) triple has no
registered WebhookTarget returns the structured not-found error, performs
zero delivery attempts and appends zero log records; the
RedisLogSenderable, however, is constructed before the lookup. -/
theorem C1_target_not_found (deliver : List (String × PyVal) → Nat → AttemptOutcome)
    (lpushFaults : Nat → Bool) (now : Nat → Nat)
    (targets : List WebhookTarget) (owner_field : String) (attempts : List Int)
    (wrapped : Kwargs → List (String × PyVal))
    (dkwargs : List (String × String)) (hash_value : String) (kwargs : Kwargs)
    (event : String) (owner : Owner) (identifier : String)
    (hE : lookupStr dkwargs "event" = some event)
    (hO : kwargs.owner = some owner)
    (hI : kwargs.identifier = some identifier)
    (hT : WebhookTarget.get targets event owner identifier = Option.none) :
    redislog_callable deliver lpushFaults now targets owner_field attempts
        wrapped dkwargs hash_value kwargs =
      Except.ok ⟨DispatchResult.error "WebhookTarget not found", true, 0, []⟩ := by
  simp [redislog_callable, hE, hO, hI, hT]

/-- C1 counterexample: the claim says a dispatch to a missing target
short-circuits without constructing a Senderable.  On this concrete
dispatch with an empty target table the call does return the not-found
error with zero attempts and zero log records, but the outcome records
that the RedisLogSenderable was constructed: redislog.py line 99 runs
before the lookup of lines 105-112. -/
theorem C1_counterexample_sender_constructed :
    redislog_callable (fun _ _ => ⟨200, "ok"⟩) (fun _ => false) (fun _ => 0)
        [] "username" [0, 15, 30, 60] (fun _ => [])
        [("event", "order.ship")] "h"
        ⟨some ⟨[("username", "alice")]⟩, some "42", []⟩ =
      Except.ok ⟨DispatchResult.error "WebhookTarget not found", true, 0, []⟩ ∧
    (⟨DispatchResult.error "WebhookTarget not found", true, 0, []⟩
        : DispatchOutcome).senderConstructed = true := by
  exact ⟨rfl, rfl⟩

/-- C1 witness: the amended statement at a concrete dispatch with no
registered target. -/
theorem C1_witness :
    redislog_callable (fun _ _ => ⟨500, "no"⟩) (fun _ => false) (fun _ => 0)
        [] "username" [0] (fun _ => []) [("event", "e")] "h0"
        ⟨some ⟨[("username", "bob")]⟩, some "7", []⟩ =
      Except.ok ⟨DispatchResult.error "WebhookTarget not found", true, 0, []⟩ :=
  C1_target_not_found (fun _ _ => ⟨500, "no"⟩) (fun _ => false) (fun _ => 0)
    [] "username" [0] (fun _ => []) [("event", "e")] "h0"
    ⟨some ⟨[("username", "bob")]⟩, some "7", []⟩
    "e" ⟨[("username", "bob")]⟩ "7" rfl rfl rfl rfl

/-- C3: a call missing the event decorator argument, or the owner or the
identifier invocation keyword, raises a TypeError with a distinct message
per missing key; the result is the same constant for every network,
target-table and log collaborator, so the failure occurs before any
network access, target lookup or log access. -/
theorem C3_missing_keys_fail_early
    (deliver : List (String × PyVal) → Nat → AttemptOutcome)
    (lpushFaults : Nat → Bool) (now : Nat → Nat)
    (targets : List WebhookTarget) (owner_field : String) (attempts : List Int)
    (wrapped : Kwargs → List (String × PyVal))
    (dkwargs : List (String × String)) (hash_value : String) (kwargs : Kwargs) :
    (lookupStr dkwargs "event" = Option.none →
      redislog_callable deliver lpushFaults now targets owner_field attempts
          wrapped dkwargs hash_value kwargs =
        Except.error (PyError.typeError
          "djwebhooks.decorators.hook requires an event argument in the decorator.")) ∧
    (∀ event, lookupStr dkwargs "event" = some event →
      kwargs.owner = Option.none →
      redislog_callable deliver lpushFaults now targets owner_field attempts
          wrapped dkwargs hash_value kwargs =
        Except.error (PyError.typeError
          "djwebhooks.senders.redislog_callable requires an owner argument in the decorated function.")) ∧
    (∀ event owner, lookupStr dkwargs "event" = some event →
      kwargs.owner = some owner → kwargs.identifier = Option.none →
      redislog_callable deliver lpushFaults now targets owner_field attempts
          wrapped dkwargs hash_value kwargs =
        Except.error (PyError.typeError
          "djwebhooks.senders.redislog_callable requires an identifier argument in the decorated function.")) ∧
    ("djwebhooks.decorators.hook requires an event argument in the decorator." ≠
      "djwebhooks.senders.redislog_callable requires an owner argument in the decorated function." ∧
    "djwebhooks.decorators.hook requires an event argument in the decorator." ≠
      "djwebhooks.senders.redislog_callable requires an identifier argument in the decorated function." ∧
    "djwebhooks.senders.redislog_callable requires an owner argument in the decorated function." ≠
      "djwebhooks.senders.redislog_callable requires an identifier argument in the decorated function.") := by
  refine ⟨?_, ?_, ?_, by decide, by decide, by decide⟩
  · intro hE
    simp [redislog_callable, hE]
  · intro event hE hO
    simp [redislog_callable, hE, hO]
  · intro event owner hE hO hI
    simp [redislog_callable, hE, hO, hI]

/-- C3 witness: the three missing-key failures at concrete inputs. -/
theorem C3_witness :
    redislog_callable (fun _ _ => ⟨200, "ok"⟩) (fun _ => false) (fun _ => 0)
        [] "username" [0] (fun _ => []) [] "h"
        ⟨some ⟨[("username", "a")]⟩, some "1", []⟩ =
      Except.error (PyError.typeError
        "djwebhooks.decorators.hook requires an event argument in the decorator.") ∧
    redislog_callable (fun _ _ => ⟨200, "ok"⟩) (fun _ => false) (fun _ => 0)
        [] "username" [0] (fun _ => []) [("event", "e")] "h"
        ⟨Option.none, some "1", []⟩ =
      Except.error (PyError.typeError
        "djwebhooks.senders.redislog_callable requires an owner argument in the decorated function.") ∧
    redislog_callable (fun _ _ => ⟨200, "ok"⟩) (fun _ => false) (fun _ => 0)
        [] "username" [0] (fun _ => []) [("event", "e")] "h"
        ⟨some ⟨[("username", "a")]⟩, Option.none, []⟩ =
      Except.error (PyError.typeError
        "djwebhooks.senders.redislog_callable requires an identifier argument in the decorated function.") :=
  ⟨(C3_missing_keys_fail_early (fun _ _ => ⟨200, "ok"⟩) (fun _ => false)
      (fun _ => 0) [] "username" [0] (fun _ => []) [] "h"
      ⟨some ⟨[("username", "a")]⟩, some "1", []⟩).1 rfl,
   (C3_missing_keys_fail_early (fun _ _ => ⟨200, "ok"⟩) (fun _ => false)
      (fun _ => 0) [] "username" [0] (fun _ => []) [("event", "e")] "h"
      ⟨Option.none, some "1", []⟩).2.1 "e" rfl rfl,
   (C3_missing_keys_fail_early (fun _ _ => ⟨200, "ok"⟩) (fun _ => false)
      (fun _ => 0) [] "username" [0] (fun _ => []) [("event", "e")] "h"
      ⟨some ⟨[("username", "a")]⟩, Option.none, []⟩).2.2.1 "e"
      ⟨[("username", "a")]⟩ rfl rfl rfl⟩

/-- The success flag and the attempt history of the retry loop do not
depend on which attempts suffer a log-append fault. -/
theorem runAttempts_indep_faults
    (deliver : List (String × PyVal) → Nat → AttemptOutcome)
    (f g : Nat → Bool) (now : Nat → Nat) (ctx : SenderCtx) :
    ∀ (schedule : List Int) (i : Nat),
      (runAttempts deliver f now ctx i schedule).1 =
        (runAttempts deliver g now ctx i schedule).1 ∧
      (runAttempts deliver f now ctx i schedule).2.1 =
        (runAttempts deliver g now ctx i schedule).2.1 := by
  intro schedule
  induction schedule with
  | nil => intro i; exact ⟨rfl, rfl⟩
  | cons a rest ih =>
    intro i
    by_cases hs : isSuccess (deliver ctx.payload i).status = true
    · constructor <;> simp [runAttempts, hs]
    · constructor <;> simp [runAttempts, hs, (ih (i + 1)).1, (ih (i + 1)).2]

/-- C5: the structured result of send, its success field included, is the
same whatever faults the log append raises during notify: a notify fault
never aborts the retry loop and never changes the outcome. -/
theorem C5_notify_fault_isolated
    (deliver : List (String × PyVal) → Nat → AttemptOutcome)
    (f g : Nat → Bool) (now : Nat → Nat) (ctx : SenderCtx)
    (schedule : List Int) :
    (Senderable.send deliver f now ctx schedule).1 =
      (Senderable.send deliver g now ctx schedule).1 := by
  have h := runAttempts_indep_faults deliver f g now ctx schedule 0
  simp [Senderable.send, h.1, h.2]

/-- C6: with retry schedule [0, 15, 30, 60] and a deliver operation that
fails on every attempt, send performs exactly 4 attempts, reports
success = false, and the attempt history is the 4 ordered entries with
attempt indices 0 through 3. -/
theorem C6_exhausted_schedule_four_attempts
    (deliver : List (String × PyVal) → Nat → AttemptOutcome)
    (lpushFaults : Nat → Bool) (now : Nat → Nat) (ctx : SenderCtx)
    (h : ∀ p i, isSuccess (deliver p i).status = false) :
    (Senderable.send deliver lpushFaults now ctx [0, 15, 30, 60]).1.success =
      false ∧
    (Senderable.send deliver lpushFaults now ctx
      [0, 15, 30, 60]).1.attempts.length = 4 ∧
    (Senderable.send deliver lpushFaults now ctx
      [0, 15, 30, 60]).1.attempts.map AttemptRecord.attempt = [0, 1, 2, 3] := by
  refine ⟨?_, ?_, ?_⟩ <;> simp [Senderable.send, runAttempts, h]

/-- C6 witness: a concrete always-failing endpoint. -/
theorem C6_witness :
    (Senderable.send (fun _ _ => ⟨503, "unavailable"⟩) (fun _ => false)
      (fun _ => 0) ⟨"order.ship", ⟨[("username", "alice")]⟩, "42", [], "h6"⟩
      [0, 15, 30, 60]).1.success = false ∧
    (Senderable.send (fun _ _ => ⟨503, "unavailable"⟩) (fun _ => false)
      (fun _ => 0) ⟨"order.ship", ⟨[("username", "alice")]⟩, "42", [], "h6"⟩
      [0, 15, 30, 60]).1.attempts.length = 4 ∧
    (Senderable.send (fun _ _ => ⟨503, "unavailable"⟩) (fun _ => false)
      (fun _ => 0) ⟨"order.ship", ⟨[("username", "alice")]⟩, "42", [], "h6"⟩
      [0, 15, 30, 60]).1.attempts.map AttemptRecord.attempt = [0, 1, 2, 3] :=
  C6_exhausted_schedule_four_attempts (fun _ _ => ⟨503, "unavailable"⟩)
    (fun _ => false) (fun _ => 0)
    ⟨"order.ship", ⟨[("username", "alice")]⟩, "42", [], "h6"⟩
    (fun _ _ => rfl)

/-- Reading back the key just written returns the new value. -/
theorem dictGet_dictSet_self (d : List (String × PyVal)) (k : String)
    (v : PyVal) : dictGet (dictSet d k v) k = some v := by
  induction d with
  | nil => simp [dictGet, dictSet, lookupStr]
  | cons p rest ih =>
    obtain ⟨k0, v0⟩ := p
    by_cases h : k0 = k
    · simp [dictGet, dictSet, h, lookupStr]
    · simpa [dictGet, dictSet, h, lookupStr] using ih

/-- Writing one key leaves every other key unchanged. -/
theorem dictGet_dictSet_other (d : List (String × PyVal)) (k k2 : String)
    (v : PyVal) (h : k2 ≠ k) :
    dictGet (dictSet d k v) k2 = dictGet d k2 := by
  induction d with
  | nil => simp [dictGet, dictSet, lookupStr, Ne.symm h]
  | cons p rest ih =>
    obtain ⟨k0, v0⟩ := p
    by_cases hk : k0 = k
    · subst hk
      simp [dictGet, dictSet, lookupStr, Ne.symm h]
    · by_cases hk2 : k0 = k2
      · subst hk2
        simp [dictGet, dictSet, lookupStr, hk]
      · simpa [dictGet, dictSet, lookupStr, hk, hk2] using ih

/-- C7: the payload handed to send is the mapping returned by the wrapped
function with exactly the owner and event entries added or overwritten:
owner is the owner object projected through the configured owner field,
event is the declared event, and every other key reads exactly as in the
wrapped function result. -/
theorem C7_payload_augmentation (wrapped : Kwargs → List (String × PyVal))
    (kwargs : Kwargs) (v event : String) :
    dictGet (augment_payload (wrapped kwargs) v event) "owner" =
      some (PyVal.str v) ∧
    dictGet (augment_payload (wrapped kwargs) v event) "event" =
      some (PyVal.str event) ∧
    ∀ k, k ≠ "owner" → k ≠ "event" →
      dictGet (augment_payload (wrapped kwargs) v event) k =
        dictGet (wrapped kwargs) k := by
  refine ⟨?_, ?_, ?_⟩
  · rw [augment_payload, dictGet_dictSet_other _ _ _ _ (by decide),
      dictGet_dictSet_self]
  · rw [augment_payload, dictGet_dictSet_self]
  · intro k hko hke
    rw [augment_payload, dictGet_dictSet_other _ _ _ _ hke,
      dictGet_dictSet_other _ _ _ _ hko]

/-- C7 witness: a concrete wrapped payload keeps its other entry while
owner and event are set. -/
theorem C7_witness :
    dictGet (augment_payload ((fun _ => [("order_num", PyVal.int 7)])
        (⟨Option.none, Option.none, []⟩ : Kwargs)) "alice" "order.ship")
      "owner" = some (PyVal.str "alice") ∧
    dictGet (augment_payload ((fun _ => [("order_num", PyVal.int 7)])
        (⟨Option.none, Option.none, []⟩ : Kwargs)) "alice" "order.ship")
      "event" = some (PyVal.str "order.ship") ∧
    dictGet (augment_payload ((fun _ => [("order_num", PyVal.int 7)])
        (⟨Option.none, Option.none, []⟩ : Kwargs)) "alice" "order.ship")
      "order_num" =
      dictGet ((fun _ => [("order_num", PyVal.int 7)])
        (⟨Option.none, Option.none, []⟩ : Kwargs)) "order_num" :=
  ⟨(C7_payload_augmentation (fun _ => [("order_num", PyVal.int 7)])
      ⟨Option.none, Option.none, []⟩ "alice" "order.ship").1,
   (C7_payload_augmentation (fun _ => [("order_num", PyVal.int 7)])
      ⟨Option.none, Option.none, []⟩ "alice" "order.ship").2.1,
   (C7_payload_augmentation (fun _ => [("order_num", PyVal.int 7)])
      ⟨Option.none, Option.none, []⟩ "alice" "order.ship").2.2 "order_num"
      (by decide) (by decide)⟩

/-- With the username attribute present and no log-append fault, the retry
loop appends exactly one record per attempt, in attempt order: its log is
its attempt history mapped through mkLogEntry. -/
theorem runAttempts_log_map
    (deliver : List (String × PyVal) → Nat → AttemptOutcome)
    (lpushFaults : Nat → Bool) (now : Nat → Nat) (ctx : SenderCtx) (u : String)
    (hU : ctx.owner.getattr "username" = some u)
    (hF : ∀ i, lpushFaults i = false) :
    ∀ (schedule : List Int) (i : Nat),
      (runAttempts deliver lpushFaults now ctx i schedule).2.2 =
        (runAttempts deliver lpushFaults now ctx i schedule).2.1.map
          (mkLogEntry ctx u now) := by
  intro schedule
  induction schedule with
  | nil => intro i; rfl
  | cons a rest ih =>
    intro i
    by_cases hs : isSuccess (deliver ctx.payload i).status = true
    · simp [runAttempts, hs, notifyStep, RedisLogSenderable.notify, hU, hF,
        mkLogEntry]
    · simp [runAttempts, hs, notifyStep, RedisLogSenderable.notify, hU, hF,
        mkLogEntry, ih (i + 1)]

/-- The send-level form of runAttempts_log_map. -/
theorem send_log_map (deliver : List (String × PyVal) → Nat → AttemptOutcome)
    (lpushFaults : Nat → Bool) (now : Nat → Nat) (ctx : SenderCtx) (u : String)
    (hU : ctx.owner.getattr "username" = some u)
    (hF : ∀ i, lpushFaults i = false) (schedule : List Int) :
    (Senderable.send deliver lpushFaults now ctx schedule).2 =
      (Senderable.send deliver lpushFaults now ctx schedule).1.attempts.map
        (mkLogEntry ctx u now) :=
  runAttempts_log_map deliver lpushFaults now ctx u hU hF schedule 0

/-- C4: with the owner username present and no log fault, every delivery
attempt appends exactly one record to the keyed log: the log equals the
attempt history mapped through mkLogEntry, so each attempt contributes
one record under the key event:username:identifier carrying the payload,
attempt index, success flag, response body, hash, status code,
notification message and timestamp. -/
theorem C4_notify_appends_one_record_per_attempt
    (deliver : List (String × PyVal) → Nat → AttemptOutcome)
    (lpushFaults : Nat → Bool) (now : Nat → Nat) (ctx : SenderCtx)
    (schedule : List Int) (u : String)
    (hU : ctx.owner.getattr "username" = some u)
    (hF : ∀ i, lpushFaults i = false) :
    (Senderable.send deliver lpushFaults now ctx schedule).2 =
      (Senderable.send deliver lpushFaults now ctx schedule).1.attempts.map
        (mkLogEntry ctx u now) :=
  send_log_map deliver lpushFaults now ctx u hU hF schedule

/-- C4 witness: a concrete two-attempt delivery writes two keyed records,
one per attempt. -/
theorem C4_witness :
    (Senderable.send (fun _ _ => ⟨500, "err"⟩) (fun _ => false) (fun _ => 7)
        ⟨"order.ship", ⟨[("username", "alice")]⟩, "42",
          [("a", PyVal.int 1)], "h4"⟩ [0, 15]).2 =
      (Senderable.send (fun _ _ => ⟨500, "err"⟩) (fun _ => false) (fun _ => 7)
        ⟨"order.ship", ⟨[("username", "alice")]⟩, "42",
          [("a", PyVal.int 1)], "h4"⟩ [0, 15]).1.attempts.map
        (mkLogEntry ⟨"order.ship", ⟨[("username", "alice")]⟩, "42",
          [("a", PyVal.int 1)], "h4"⟩ "alice" (fun _ => 7)) :=
  C4_notify_appends_one_record_per_attempt (fun _ _ => ⟨500, "err"⟩)
    (fun _ => false) (fun _ => 7)
    ⟨"order.ship", ⟨[("username", "alice")]⟩, "42", [("a", PyVal.int 1)], "h4"⟩
    [0, 15] "alice" rfl (fun _ => rfl)

/-- When the required keys are present, the target exists and the owner
field projects, redislog_callable delegates to send on the augmented
payload. -/
theorem redislog_callable_sends
    (deliver : List (String × PyVal) → Nat → AttemptOutcome)
    (lpushFaults : Nat → Bool) (now : Nat → Nat)
    (targets : List WebhookTarget) (owner_field : String) (attempts : List Int)
    (wrapped : Kwargs → List (String × PyVal))
    (dkwargs : List (String × String)) (hash_value : String) (kwargs : Kwargs)
    (event : String) (owner : Owner) (identifier : String)
    (tgt : WebhookTarget) (v : String)
    (hE : lookupStr dkwargs "event" = some event)
    (hO : kwargs.owner = some owner)
    (hI : kwargs.identifier = some identifier)
    (hT : WebhookTarget.get targets event owner identifier = some tgt)
    (hV : owner.getattr owner_field = some v) :
    redislog_callable deliver lpushFaults now targets owner_field attempts
        wrapped dkwargs hash_value kwargs =
      Except.ok
        ⟨DispatchResult.sent (Senderable.send deliver lpushFaults now
            ⟨event, owner, identifier,
              augment_payload (wrapped kwargs) v event, hash_value⟩
            attempts).1, true,
          (Senderable.send deliver lpushFaults now
            ⟨event, owner, identifier,
              augment_payload (wrapped kwargs) v event, hash_value⟩
            attempts).1.attempts.length,
          (Senderable.send deliver lpushFaults now
            ⟨event, owner, identifier,
              augment_payload (wrapped kwargs) v event, hash_value⟩
            attempts).2⟩ := by
  simp [redislog_callable, hE, hO, hI, hT, hV]

/-- C9: on a dispatch that reaches the retry loop, every record the audit
log receives is keyed with the owner username attribute, whatever owner
field is configured, while the owner entry inside the logged payload is
the owner projected through the configured field. -/
theorem C9_log_key_uses_username
    (deliver : List (String × PyVal) → Nat → AttemptOutcome)
    (lpushFaults : Nat → Bool) (now : Nat → Nat)
    (targets : List WebhookTarget) (owner_field : String) (attempts : List Int)
    (wrapped : Kwargs → List (String × PyVal))
    (dkwargs : List (String × String)) (hash_value : String) (kwargs : Kwargs)
    (event : String) (owner : Owner) (identifier : String)
    (tgt : WebhookTarget) (u v : String)
    (hE : lookupStr dkwargs "event" = some event)
    (hO : kwargs.owner = some owner)
    (hI : kwargs.identifier = some identifier)
    (hT : WebhookTarget.get targets event owner identifier = some tgt)
    (hU : owner.getattr "username" = some u)
    (hV : owner.getattr owner_field = some v)
    (hF : ∀ i, lpushFaults i = false) :
    redislog_callable deliver lpushFaults now targets owner_field attempts
        wrapped dkwargs hash_value kwargs =
      Except.ok
        ⟨DispatchResult.sent (Senderable.send deliver lpushFaults now
            ⟨event, owner, identifier,
              augment_payload (wrapped kwargs) v event, hash_value⟩
            attempts).1, true,
          (Senderable.send deliver lpushFaults now
            ⟨event, owner, identifier,
              augment_payload (wrapped kwargs) v event, hash_value⟩
            attempts).1.attempts.length,
          (Senderable.send deliver lpushFaults now
            ⟨event, owner, identifier,
              augment_payload (wrapped kwargs) v event, hash_value⟩
            attempts).2⟩ ∧
    ∀ e, e ∈ (Senderable.send deliver lpushFaults now
        ⟨event, owner, identifier,
          augment_payload (wrapped kwargs) v event, hash_value⟩ attempts).2 →
      e.1 = make_key event u identifier ∧
      dictGet e.2.payload "owner" = some (PyVal.str v) := by
  constructor
  · exact redislog_callable_sends deliver lpushFaults now targets owner_field
      attempts wrapped dkwargs hash_value kwargs event owner identifier tgt v
      hE hO hI hT hV
  · intro e he
    rw [send_log_map deliver lpushFaults now _ u hU hF attempts] at he
    rw [List.mem_map] at he
    obtain ⟨r, _, rfl⟩ := he
    constructor
    · rfl
    · show dictGet (augment_payload (wrapped kwargs) v event) "owner" =
        some (PyVal.str v)
      rw [augment_payload, dictGet_dictSet_other _ _ _ _ (by decide),
        dictGet_dictSet_self]

/-- C9 witness: with the owner field configured as email, the concrete
dispatch logs under the username-based key while the logged payload owner
entry is the email value. -/
theorem C9_witness :
    ("order.ship:alice:42",
      (⟨[("owner", PyVal.str "bob@x"), ("event", PyVal.str "order.ship")], 0,
        false, "err", "h9", 500, "Attempt 1", 3⟩ : NotifyRecord)).1 =
      make_key "order.ship" "alice" "42" ∧
    dictGet (⟨[("owner", PyVal.str "bob@x"), ("event", PyVal.str "order.ship")],
        0, false, "err", "h9", 500, "Attempt 1", 3⟩ : NotifyRecord).payload
      "owner" = some (PyVal.str "bob@x") :=
  (C9_log_key_uses_username (fun _ _ => ⟨500, "err"⟩) (fun _ => false)
      (fun _ => 3)
      [⟨"order.ship", ⟨[("username", "alice"), ("email", "bob@x")]⟩, "42",
        "http://t"⟩]
      "email" [0] (fun _ => []) [("event", "order.ship")] "h9"
      ⟨some ⟨[("username", "alice"), ("email", "bob@x")]⟩, some "42", []⟩
      "order.ship" ⟨[("username", "alice"), ("email", "bob@x")]⟩ "42"
      ⟨"order.ship", ⟨[("username", "alice"), ("email", "bob@x")]⟩, "42",
        "http://t"⟩
      "alice" "bob@x" rfl rfl rfl rfl rfl rfl (fun _ => rfl)).2
    ("order.ship:alice:42",
      ⟨[("owner", PyVal.str "bob@x"), ("event", PyVal.str "order.ship")], 0,
        false, "err", "h9", 500, "Attempt 1", 3⟩)
    (List.Mem.head _)

end DjWebhooks
